import Mathlib

/-!
Shallow embedding of the `chicagohouses` package (file
`src/chicagohouses/funcs.py`): the function `get_houses` and its helper
`__validate_args`.

Modelling conventions:
* A dataframe row is a `Row`; the five core columns are explicit fields and
  the characteristic columns (used only in full mode) are an opaque
  association list whose values no claim inspects.
* The backing parquet file is a `Dataset`; `get_houses` receives it as
  `Option Dataset`, where `none` models the `FileNotFoundError` raised by
  `pl.scan_parquet` when the file is missing.
* Python falsy/truthy argument values (`False`, `""`, `[]`, `0`) are modelled
  by explicit argument types `CommArg` and `YearArg` with a `truthy`
  function mirroring Python truthiness.
* Column projection is tracked in the `cols` field of a `Frame`; rows keep
  all their fields (projection and filtering commute observably, as in
  polars).
* The `print` side effect and the in-place `list.extend` mutation of the
  caller's `year_range` argument are made explicit in `CallEffects`.
-/

/-- A property record: one row of the backing parquet dataset.  The five core
columns (`pin`, `addr`, `build_year`, `community`, `house_point`) are explicit
fields; the characteristic columns present only in full mode are an opaque
association list. -/
structure Row where
  pin : String
  addr : String
  build_year : Int
  community : String
  house_point : String
  extras : List (String × String) := []
deriving Repr, DecidableEq

/-- The backing dataset: the names of its characteristic (non-core) columns
and its rows. -/
structure Dataset where
  charCols : List String
  rows : List Row
deriving Repr, DecidableEq

/-- The five core columns selected when `full_data` is false
(funcs.py line 46). -/
def coreCols : List String := ["pin", "addr", "build_year", "community", "house_point"]

/-- Schema of the dataset: the core columns plus the characteristic columns. -/
def Dataset.cols (d : Dataset) : List String := coreCols ++ d.charCols

/-- The distinct values of the `community` column, as computed by
`p_df.select('community').unique().collect().to_series().to_list()`
(funcs.py lines 90-94).  Only membership in this list is ever used, so the
order produced by `dedup` is immaterial. -/
def Dataset.communities (d : Dataset) : List String := (d.rows.map Row.community).dedup

/-- The fixed relative path of the backing file (funcs.py line 35). -/
def dataFile : String := "chicagohouses/data/houses.parquet.gzip"

/-- A Python value supplied for the `community_areas` argument: the falsy
default `False`, a single string, or a list of strings. -/
inductive CommArg where
  | none
  | str (s : String)
  | list (xs : List String)
deriving Repr, DecidableEq

/-- Python truthiness of a `community_areas` value: `False` and empty
strings/lists are falsy. -/
def CommArg.truthy : CommArg → Bool
  | .none => false
  | .str s => !s.isEmpty
  | .list xs => !xs.isEmpty

/-- The list a truthy `community_areas` value is turned into
(`if isinstance(community_areas, str): community_areas = [community_areas]`,
funcs.py line 72). -/
def CommArg.toList : CommArg → List String
  | .none => []
  | .str s => [s]
  | .list xs => xs

/-- A Python value supplied for the `year_range` argument: the falsy default
`False`, a single number, or a list of numbers. -/
inductive YearArg where
  | none
  | num (y : Int)
  | list (ys : List Int)
deriving Repr, DecidableEq

/-- Python truthiness of a `year_range` value: `False`, the number `0` and the
empty list are falsy. -/
def YearArg.truthy : YearArg → Bool
  | .none => false
  | .num y => y != 0
  | .list ys => !ys.isEmpty

/-- The list a truthy `year_range` value is turned into
(`if isinstance(year_range, (int, float)): year_range = [year_range]`,
funcs.py line 77). -/
def YearArg.toList : YearArg → List Int
  | .none => []
  | .num y => [y]
  | .list ys => ys

/-- The errors `get_houses` can raise (all `RuntimeError` in the source,
distinguished here by their messages). -/
inductive Err where
  | dataUnavailable (path : String)
  | invalidYearRange
  | invalidOutputType
  | invalidCommunityArea (names : List String)
deriving Repr, DecidableEq

/-- The message carried by each `RuntimeError` raised in funcs.py. -/
def Err.message : Err → String
  | .dataUnavailable p =>
      "Unable to scan data file. Ensure file exists at \"" ++ p ++ "\"."
  | .invalidYearRange =>
      "Invalid date range. Requires a 2-integer list of values."
  | .invalidOutputType =>
      "Invalid selection for \"output_type\". Choose one of the following: " ++
      "\"polars\", \"geopandas\", or \"pandas\"."
  | .invalidCommunityArea names =>
      "The following are not valid community area(s): " ++
      String.intercalate ", " names ++ "."

/-- Normalization of a truthy `year_range`: a one-element list is extended
with itself (`year_range.extend(year_range)`, funcs.py line 78). -/
def normYear (yr : YearArg) : List Int :=
  let ys := yr.toList
  if ys.length = 1 then ys ++ ys else ys

/-- The year-range steps of `__validate_args` (funcs.py lines 76-80):
normalize a truthy value and require exactly two entries; a falsy value
passes through untouched (modelled as `Option.none`). -/
def yearStep (yr : YearArg) : Except Err (Option (List Int)) :=
  if yr.truthy then
    if (normYear yr).length ≠ 2 then Except.error Err.invalidYearRange
    else Except.ok (some (normYear yr))
  else Except.ok none

/-- The community-area normalization of `__validate_args` (funcs.py lines
72-74): a truthy value becomes an uppercased list; a falsy value passes
through untouched (modelled as `Option.none`). -/
def normComm (ca : CommArg) : Option (List String) :=
  if ca.truthy then some (ca.toList.map String.toUpper) else none

/-- The community-area validity check of `__validate_args` (funcs.py lines
88-98): every normalized name must occur among the dataset's distinct
community values, else the error lists all offending names. -/
def commCheck (ca : Option (List String)) (p_df : Dataset) :
    Except Err (Option (List String)) :=
  match ca with
  | some areas =>
    let invalid_areas := areas.filter (fun area => !(p_df.communities.contains area))
    if !invalid_areas.isEmpty then
      Except.error (Err.invalidCommunityArea invalid_areas)
    else Except.ok (some areas)
  | Option.none => Except.ok Option.none

/-- Embedding of `__validate_args` (funcs.py lines 69-101).  The checks run in
source order: year-range normalization (which can fail), then the
`output_type` membership check, then the community-area validity check.  The
community normalization itself (which cannot fail) happens first in the
source; since it is pure its placement is unobservable. -/
def validate_args (community_areas : CommArg) (output_type : String)
    (year_range : YearArg) (p_df : Dataset) :
    Except Err (Option (List String) × Option (List Int)) :=
  match yearStep year_range with
  | Except.error e => Except.error e
  | Except.ok yr =>
    if !(["geopandas", "pandas", "polars"].contains output_type) then
      Except.error Err.invalidOutputType
    else
      match commCheck (normComm community_areas) p_df with
      | Except.error e => Except.error e
      | Except.ok ca => Except.ok (ca, yr)

/-- A (possibly lazy) dataframe: its column names and its rows. -/
structure Frame where
  cols : List String
  rows : List Row
deriving Repr, DecidableEq

/-- A point parsed from well-known text by `gpd.GeoSeries.from_wkt`
(kept symbolic: the WKT string itself). -/
structure Point where
  wkt : String
deriving Repr, DecidableEq

/-- The value returned by `get_houses`: a materialized GeoDataFrame with the
geometry column parsed from WKT and a CRS attached, a materialized pandas
DataFrame, or the unexecuted polars LazyFrame. -/
inductive Res where
  | geo (f : Frame) (geometry : List Point) (crs : String)
  | pandasDF (f : Frame)
  | polarsLazy (f : Frame)
deriving Repr, DecidableEq

/-- The rows of a result, in any of the three representations. -/
def Res.rows : Res → List Row
  | .geo f _ _ => f.rows
  | .pandasDF f => f.rows
  | .polarsLazy f => f.rows

/-- The column names of a result, in any of the three representations. -/
def Res.cols : Res → List String
  | .geo f _ _ => f.cols
  | .pandasDF f => f.cols
  | .polarsLazy f => f.cols

/-- The community filter of `get_houses` (funcs.py lines 51-52): when the
validated `community_areas` is truthy, keep rows whose `community` is among
the (re-)uppercased names. -/
def commFilter (ca : Option (List String)) (rows : List Row) : List Row :=
  match ca with
  | some areas => rows.filter (fun r => (areas.map String.toUpper).contains r.community)
  | Option.none => rows

/-- The year filter of `get_houses` (funcs.py lines 53-54): when the validated
`year_range` is truthy, keep rows with `year_range[0] <= build_year <=
year_range[1]` (polars `is_between` is inclusive on both ends).  Validation
guarantees the list has exactly two entries, so the `getD` defaults are never
used. -/
def yearFilter (yr : Option (List Int)) (rows : List Row) : List Row :=
  match yr with
  | some ys => rows.filter (fun r =>
      decide (ys.getD 0 0 ≤ r.build_year) && decide (r.build_year ≤ ys.getD 1 0))
  | Option.none => rows

/-- The console notice printed when `full_data` is true (funcs.py lines
48-50). -/
def fullDataNotice : String :=
  "See dataset documentation here: https://datacatalog.cookcountyil.gov/" ++
  "Property-Taxation/Assessor-Archived-05-11-2022-Residential-Property-/" ++
  "bcnq-qi2z"

/-- Materialization according to `output_type` (funcs.py lines 57-65): for
"geopandas", collect and attach the geometry parsed from the `house_point`
WKT column under CRS EPSG:4326; for "pandas", collect to a plain table; for
"polars", return the unexecuted plan.  Any other value falls through to the
implicit `None`. -/
def buildResult (output_type : String) (f : Frame) : Option Res :=
  if output_type = "geopandas" then
    some (Res.geo f (f.rows.map fun r => Point.mk r.house_point) "EPSG:4326")
  else if output_type = "pandas" then some (Res.pandasDF f)
  else if output_type = "polars" then some (Res.polarsLazy f)
  else Option.none

/-- The caller-visible `year_range` value after `__validate_args` has run:
`year_range.extend(year_range)` (funcs.py line 78) mutates a caller-supplied
one-element list in place.  Scalars are rebound to a fresh list, so the
caller's value is untouched in every other case. -/
def yearArgAfterValidate : YearArg → YearArg
  | YearArg.list ys => if ys.length = 1 then YearArg.list (ys ++ ys) else YearArg.list ys
  | y => y

/-- Observable outcome of one `get_houses` call: the returned value or raised
error, the console output, and the caller-visible value of the `year_range`
argument after the call. -/
structure CallEffects where
  result : Except Err (Option Res)
  console : List String
  yearRangeAfter : YearArg
deriving Repr

/-- Embedding of `get_houses` (funcs.py lines 9-66), with its side effects
made explicit.  `data_file` is `some` dataset when the parquet file is found
and `none` when the scan raises `FileNotFoundError`. -/
def get_houses_run (data_file : Option Dataset) (community_areas : CommArg)
    (year_range : YearArg) (full_data : Bool) (output_type : String) :
    CallEffects :=
  match data_file with
  | Option.none =>
    { result := Except.error (Err.dataUnavailable dataFile)
      console := []
      yearRangeAfter := year_range }
  | some p_df =>
    match validate_args community_areas output_type year_range p_df with
    | Except.error e =>
      { result := Except.error e
        console := []
        yearRangeAfter := yearArgAfterValidate year_range }
    | Except.ok (ca, yr) =>
      let f : Frame :=
        { cols := if !full_data then coreCols else p_df.cols
          rows := yearFilter yr (commFilter ca p_df.rows) }
      { result := Except.ok (buildResult output_type f)
        console := if full_data then [fullDataNotice] else []
        yearRangeAfter := yearArgAfterValidate year_range }

/-- The value returned (or error raised) by `get_houses`. -/
def get_houses (data_file : Option Dataset) (community_areas : CommArg)
    (year_range : YearArg) (full_data : Bool) (output_type : String) :
    Except Err (Option Res) :=
  (get_houses_run data_file community_areas year_range full_data output_type).result

/-! Sample data used by concrete witnesses and counterexamples. -/

/-- A sample row in the LOOP community area. -/
def rowLoop : Row :=
  { pin := "17-09-241-001"
    addr := "100 W MAIN ST"
    build_year := 2005
    community := "LOOP"
    house_point := "POINT (-87.63 41.88)" }

/-- A sample row in the HYDE PARK community area. -/
def rowHydePark : Row :=
  { pin := "20-11-100-002"
    addr := "200 E 55TH ST"
    build_year := 1950
    community := "HYDE PARK"
    house_point := "POINT (-87.59 41.79)" }

/-- A small concrete dataset with two rows and two characteristic columns. -/
def sampleData : Dataset :=
  { charCols := ["sqft", "rooms"]
    rows := [rowLoop, rowHydePark] }

/-! Helper lemmas. -/

theorem toNat_ofNat_of_isValidChar (n : Nat) (h : n.isValidChar) :
    (Char.ofNat n).toNat = n := by
  simp [Char.ofNat, dif_pos h, Char.ofNatAux, Char.toNat, UInt32.toNat,
    BitVec.toNat_ofNatLt]

/-- Uppercasing a character is idempotent (mirrors Python `str.upper`). -/
theorem charToUpper_idempotent (c : Char) : c.toUpper.toUpper = c.toUpper := by
  unfold Char.toUpper
  by_cases h : c.toNat ≥ 97 ∧ c.toNat ≤ 122
  · rw [if_pos h]
    have hv : (c.toNat - 32).isValidChar := Or.inl (by omega)
    have ht : (Char.ofNat (c.toNat - 32)).toNat = c.toNat - 32 :=
      toNat_ofNat_of_isValidChar _ hv
    rw [if_neg (by omega)]
  · rw [if_neg h, if_neg h]

/-- Uppercasing a string is idempotent (mirrors Python `str.upper`). -/
theorem stringToUpper_idempotent (s : String) : s.toUpper.toUpper = s.toUpper := by
  simp only [String.toUpper, String.map_eq, List.map_map]
  exact congrArg String.mk (List.map_congr_left fun c _ => charToUpper_idempotent c)

/-- A successful `buildResult` preserves the rows and columns of the frame. -/
theorem buildResult_rows_cols {output_type : String} {f : Frame} {res : Res}
    (h : buildResult output_type f = some res) :
    res.rows = f.rows ∧ res.cols = f.cols := by
  unfold buildResult at h
  split at h
  · cases h; exact ⟨rfl, rfl⟩
  · split at h
    · cases h; exact ⟨rfl, rfl⟩
    · split at h
      · cases h; exact ⟨rfl, rfl⟩
      · cases h

/-- A successful community check returns its input unchanged. -/
theorem commCheck_ok {ca : Option (List String)} {ds : Dataset}
    {ca2 : Option (List String)} (h : commCheck ca ds = Except.ok ca2) :
    ca2 = ca := by
  cases ca with
  | none => exact (Except.ok.inj h).symm
  | some areas =>
    simp only [commCheck] at h
    split at h
    · cases h
    · exact (Except.ok.inj h).symm

/-- A successful validation returns the normalized community areas
unchanged. -/
theorem validate_args_ok_comm {ca : CommArg} {ot : String} {yr : YearArg}
    {ds : Dataset} {p : Option (List String) × Option (List Int)}
    (h : validate_args ca ot yr ds = Except.ok p) : p.1 = normComm ca := by
  unfold validate_args at h
  rcases hys : yearStep yr with e | yr2 <;> rw [hys] at h
  · cases h
  · dsimp only at h
    by_cases hot : (!(["geopandas", "pandas", "polars"].contains ot)) = true
    · rw [if_pos hot] at h; cases h
    · rw [if_neg hot] at h
      rcases hcc : commCheck (normComm ca) ds with e | ca2 <;> rw [hcc] at h
      · cases h
      · cases h
        exact commCheck_ok hcc

/-- A successful validation returns the normalized year range. -/
theorem validate_args_ok_year {ca : CommArg} {ot : String} {yr : YearArg}
    {ds : Dataset} {p : Option (List String) × Option (List Int)}
    (h : validate_args ca ot yr ds = Except.ok p) :
    p.2 = if yr.truthy then some (normYear yr) else Option.none := by
  unfold validate_args at h
  rcases hys : yearStep yr with e | yr2 <;> rw [hys] at h
  · cases h
  · dsimp only at h
    by_cases hot : (!(["geopandas", "pandas", "polars"].contains ot)) = true
    · rw [if_pos hot] at h; cases h
    · rw [if_neg hot] at h
      rcases hcc : commCheck (normComm ca) ds with e | ca2 <;> rw [hcc] at h
      · cases h
      · cases h
        unfold yearStep at hys
        split at hys
        · split at hys
          · cases hys
          · cases hys; simp [*]
        · cases hys; simp [*]

/-- A successful validation implies the output selector is one of the three
accepted values. -/
theorem validate_args_ok_output {ca : CommArg} {ot : String} {yr : YearArg}
    {ds : Dataset} {p : Option (List String) × Option (List Int)}
    (h : validate_args ca ot yr ds = Except.ok p) :
    ["geopandas", "pandas", "polars"].contains ot = true := by
  unfold validate_args at h
  rcases hys : yearStep yr with e | yr2 <;> rw [hys] at h
  · cases h
  · dsimp only at h
    by_cases hot : (!(["geopandas", "pandas", "polars"].contains ot)) = true
    · rw [if_pos hot] at h; cases h
    · cases hcb : ["geopandas", "pandas", "polars"].contains ot
      · exact absurd (by rw [hcb]; rfl) hot
      · rfl

/-- Evaluation form of `String.toUpper` (the recursion in `String.map` is
well-founded, so concrete instances are evaluated through the character
list). -/
theorem toUpper_data (s : String) : s.toUpper = ⟨s.data.map Char.toUpper⟩ := by
  simpa [String.toUpper] using String.map_eq Char.toUpper s

/-- Uppercasing every element of a list of strings is idempotent. -/
theorem map_toUpper_idem (l : List String) :
    (l.map String.toUpper).map String.toUpper = l.map String.toUpper := by
  rw [List.map_map]
  exact List.map_congr_left fun s _ => stringToUpper_idempotent s

/-- The year filter only removes rows. -/
theorem mem_of_mem_yearFilter {yr : Option (List Int)} {rows : List Row}
    {row : Row} (h : row ∈ yearFilter yr rows) : row ∈ rows := by
  cases yr with
  | none => exact h
  | some ys => exact (List.mem_filter.mp h).1

/-- Any row surviving an applied community filter has its community among the
uppercased names. -/
theorem community_of_mem_commFilter {areas : List String} {rows : List Row}
    {row : Row} (h : row ∈ commFilter (some areas) rows) :
    row.community ∈ areas.map String.toUpper := by
  simpa using (List.mem_filter.mp h).2

/-- Any row surviving an applied year filter satisfies both bounds. -/
theorem bounds_of_mem_yearFilter {ys : List Int} {rows : List Row} {row : Row}
    (h : row ∈ yearFilter (some ys) rows) :
    ys.getD 0 0 ≤ row.build_year ∧ row.build_year ≤ ys.getD 1 0 := by
  have h2 := (List.mem_filter.mp h).2
  simpa using h2

/-- When the output selector is one of the three accepted values,
materialization produces a result. -/
theorem buildResult_some (ot : String) (f : Frame)
    (h : ["geopandas", "pandas", "polars"].contains ot = true) :
    ∃ res, buildResult ot f = some res := by
  have hmem : ot = "geopandas" ∨ ot = "pandas" ∨ ot = "polars" := by simpa using h
  rcases hmem with h1 | h1 | h1 <;> subst h1 <;> exact ⟨_, rfl⟩

theorem buildResult_geopandas (f : Frame) :
    buildResult "geopandas" f =
      some (Res.geo f (f.rows.map fun r => Point.mk r.house_point) "EPSG:4326") := rfl

theorem buildResult_pandas (f : Frame) :
    buildResult "pandas" f = some (Res.pandasDF f) := rfl

theorem buildResult_polars (f : Frame) :
    buildResult "polars" f = some (Res.polarsLazy f) := rfl

/-- A supplied year range is acceptable when it is falsy or normalizes to
exactly two values. -/
def yearLenOK (yr : YearArg) : Bool :=
  !yr.truthy || (normYear yr).length == 2

/-- An acceptable year range makes the year-range step succeed. -/
theorem yearStep_ok_of_lenOK (yr : YearArg) (h : yearLenOK yr = true) :
    ∃ yv, yearStep yr = Except.ok yv := by
  unfold yearStep
  cases htr : yr.truthy with
  | false => exact ⟨Option.none, by simp⟩
  | true =>
    unfold yearLenOK at h
    rw [htr] at h
    simp at h
    exact ⟨some (normYear yr), by simp [h]⟩

/-- Two calls whose arguments validate identically return the same value. -/
theorem get_houses_congr_of_validate_eq {ds : Dataset} {ca : CommArg}
    {ot : String} {fd : Bool} {yr1 yr2 : YearArg}
    (h : validate_args ca ot yr1 ds = validate_args ca ot yr2 ds) :
    get_houses (some ds) ca yr1 fd ot = get_houses (some ds) ca yr2 fd ot := by
  unfold get_houses get_houses_run
  dsimp only
  rw [h]
  rcases hv : validate_args ca ot yr2 ds with e | ⟨ca2, yv⟩ <;> rfl

/-- The only mutation `yearArgAfterValidate` can perform is extending a
one-element list into a two-element list with equal entries. -/
theorem yearArgAfterValidate_cases (yr : YearArg) :
    yearArgAfterValidate yr = yr ∨
      ∃ y : Int, yr = YearArg.list [y] ∧
        yearArgAfterValidate yr = YearArg.list [y, y] := by
  cases yr with
  | none => exact Or.inl rfl
  | num y => exact Or.inl rfl
  | list ys =>
    match ys with
    | [] => exact Or.inl rfl
    | [y] => exact Or.inr ⟨y, rfl, rfl⟩
    | y1 :: y2 :: t => exact Or.inl (by simp [yearArgAfterValidate])

/-! Claim theorems. -/

/-- C8: for every combination of arguments, when the backing parquet file
cannot be found at its fixed relative path, `get_houses` fails with the
data-unavailable condition (naming that path). -/
theorem c8_missing_file_fails (ca : CommArg) (yr : YearArg) (fd : Bool)
    (ot : String) :
    get_houses Option.none ca yr fd ot =
      Except.error (Err.dataUnavailable dataFile) := rfl

/-- C10: every call that returns without an error returns a value from one of
the three output branches; the implicit fall-through returning `None` is
unreachable because validation guarantees the output selector is one of the
three accepted values. -/
theorem c10_no_fallthrough (file : Option Dataset) (ca : CommArg)
    (yr : YearArg) (fd : Bool) (ot : String) (r : Option Res)
    (h : get_houses file ca yr fd ot = Except.ok r) : ∃ res, r = some res := by
  cases file with
  | none => exact absurd h (by simp [get_houses, get_houses_run])
  | some ds =>
    unfold get_houses get_houses_run at h
    dsimp only at h
    rcases hv : validate_args ca ot yr ds with e | ⟨ca2, yr2⟩ <;>
      rw [hv] at h <;> dsimp only at h
    · exact absurd h (by simp)
    · have hok := Except.ok.inj h
      rw [← hok]
      exact buildResult_some ot _ (validate_args_ok_output hv)

/-- C10 witness: a concrete successful call returns a value. -/
theorem c10_no_fallthrough_witness :
    ∃ res, some (Res.polarsLazy { cols := coreCols, rows := sampleData.rows }) =
      some res :=
  c10_no_fallthrough (some sampleData) CommArg.none YearArg.none false "polars"
    (some (Res.polarsLazy { cols := coreCols, rows := sampleData.rows })) rfl

/-- C1: on a successful call with a truthy community-area selection (single
string or list, any letter case), every returned row's community field is the
uppercase-normalized form of one of the supplied names; a falsy
community-area input behaves exactly like an absent one (no community
filter). -/
theorem c1_community_filter (ds : Dataset) (ca : CommArg) (yr : YearArg)
    (fd : Bool) (ot : String) :
    (∀ res, get_houses (some ds) ca yr fd ot = Except.ok (some res) →
      ca.truthy = true →
      ∀ row ∈ res.rows, row.community ∈ ca.toList.map String.toUpper)
    ∧ (ca.truthy = false →
      get_houses (some ds) ca yr fd ot =
        get_houses (some ds) CommArg.none yr fd ot) := by
  constructor
  · intro res h htr row hrow
    unfold get_houses get_houses_run at h
    dsimp only at h
    rcases hv : validate_args ca ot yr ds with e | ⟨ca2, yr2⟩ <;>
      rw [hv] at h <;> dsimp only at h
    · exact absurd h (by simp)
    · have hok := Except.ok.inj h
      have hrows := (buildResult_rows_cols hok).1
      rw [hrows] at hrow
      have hca2 : ca2 = normComm ca := validate_args_ok_comm hv
      have h1 := mem_of_mem_yearFilter hrow
      rw [hca2] at h1
      unfold normComm at h1
      rw [if_pos htr] at h1
      have h2 := community_of_mem_commFilter h1
      rwa [map_toUpper_idem] at h2
  · intro hfal
    apply congrArg CallEffects.result
    unfold get_houses_run validate_args
    have hcomm : normComm ca = normComm CommArg.none := by
      unfold normComm
      rw [hfal]
      rfl
    rw [hcomm]

/-- Concrete evaluation: uppercasing the sample inputs. -/
theorem up_Loop : String.toUpper "Loop" = "LOOP" := by rw [toUpper_data]; decide

theorem up_LOOP : String.toUpper "LOOP" = "LOOP" := by rw [toUpper_data]; decide

/-- C1 witness: filtering the sample dataset by the mixed-case name "Loop"
returns a row whose community is the uppercased form "LOOP". -/
theorem c1_community_filter_witness :
    rowLoop.community ∈ (CommArg.list ["Loop"]).toList.map String.toUpper := by
  have hcall : get_houses (some sampleData) (CommArg.list ["Loop"]) YearArg.none
      false "polars" =
      Except.ok (some (Res.polarsLazy { cols := coreCols, rows := [rowLoop] })) := by
    simp [get_houses, get_houses_run, validate_args, yearStep, normYear, normComm,
      commCheck, buildResult, commFilter, yearFilter, CommArg.truthy, CommArg.toList,
      YearArg.truthy, Dataset.communities, sampleData, rowLoop, rowHydePark, up_Loop,
      up_LOOP, coreCols]
  exact (c1_community_filter sampleData (CommArg.list ["Loop"]) YearArg.none false
    "polars").1 (Res.polarsLazy { cols := coreCols, rows := [rowLoop] }) hcall rfl
    rowLoop (by simp [Res.rows])

/-- C2 counterexample: the single-number input 0 is falsy, so it is NOT
treated as the range [0, 0]: the call succeeds with no year filter at all and
returns a row whose build year is outside [0, 0]. -/
theorem c2_counterexample :
    get_houses (some sampleData) CommArg.none (YearArg.num 0) false "polars" =
      Except.ok (some (Res.polarsLazy { cols := coreCols, rows := sampleData.rows }))
    ∧ ¬ (∀ row ∈ sampleData.rows, (0 : Int) ≤ row.build_year ∧ row.build_year ≤ 0) := by
  constructor
  · rfl
  · intro hall
    have h1 := (hall rowLoop (by simp [sampleData])).2
    simp [rowLoop] at h1

/-- C2 (amended): for every supplied two-element year range [lo, hi] with
lo ≤ hi, every returned row's build year lies in [lo, hi]; a single NONZERO
number y behaves exactly like the range [y, y] (the number 0 is falsy and
applies no year filter). -/
theorem c2_year_filter (ds : Dataset) (ca : CommArg) (fd : Bool) (ot : String) :
    (∀ lo hi : Int, lo ≤ hi → ∀ res,
      get_houses (some ds) ca (YearArg.list [lo, hi]) fd ot = Except.ok (some res) →
      ∀ row ∈ res.rows, lo ≤ row.build_year ∧ row.build_year ≤ hi)
    ∧ (∀ y : Int, y ≠ 0 →
      get_houses (some ds) ca (YearArg.num y) fd ot =
        get_houses (some ds) ca (YearArg.list [y, y]) fd ot) := by
  constructor
  · intro lo hi hlohi res h row hrow
    unfold get_houses get_houses_run at h
    dsimp only at h
    rcases hv : validate_args ca ot (YearArg.list [lo, hi]) ds with e | ⟨ca2, yr2⟩ <;>
      rw [hv] at h <;> dsimp only at h
    · exact absurd h (by simp)
    · have hok := Except.ok.inj h
      have hrows := (buildResult_rows_cols hok).1
      rw [hrows] at hrow
      have hyr2 : yr2 = some [lo, hi] := by
        have h2 := validate_args_ok_year hv
        simpa [YearArg.truthy, normYear, YearArg.toList] using h2
      rw [hyr2] at hrow
      have hb := bounds_of_mem_yearFilter hrow
      simpa using hb
  · intro y hy
    apply get_houses_congr_of_validate_eq
    unfold validate_args yearStep normYear
    simp [YearArg.truthy, YearArg.toList, hy]

/-- C2 witness: a concrete range [2000, 2010] bounds the returned rows, and a
concrete nonzero single year 2000 equals the [2000, 2000] call. -/
theorem c2_year_filter_witness :
    ((2000 : Int) ≤ rowLoop.build_year ∧ rowLoop.build_year ≤ 2010)
    ∧ get_houses (some sampleData) CommArg.none (YearArg.num 2000) false "polars" =
        get_houses (some sampleData) CommArg.none (YearArg.list [2000, 2000])
          false "polars" := by
  constructor
  · exact (c2_year_filter sampleData CommArg.none false "polars").1 2000 2010
      (by omega) (Res.polarsLazy { cols := coreCols, rows := [rowLoop] }) rfl
      rowLoop (by simp [Res.rows])
  · exact (c2_year_filter sampleData CommArg.none false "polars").2 2000 (by omega)

/-- C3 counterexample: with a 3-element year range AND an invalid output
selector, the call fails with the invalid-year-range condition, not the
invalid-output-selector condition (year-range validation runs first). -/
theorem c3_counterexample :
    get_houses (some sampleData) CommArg.none (YearArg.list [1, 2, 3]) false "csv" =
      Except.error Err.invalidYearRange
    ∧ Err.invalidYearRange ≠ Err.invalidOutputType :=
  ⟨rfl, by decide⟩

/-- C3 (amended): when the backing file is present and the supplied year range
is falsy or normalizes to exactly two values, an output selector outside the
three accepted values fails with the invalid-output-selector condition,
regardless of the other arguments. -/
theorem c3_invalid_output (ds : Dataset) (ca : CommArg) (yr : YearArg) (fd : Bool)
    (ot : String) (hot : ["geopandas", "pandas", "polars"].contains ot = false)
    (hyr : yearLenOK yr = true) :
    get_houses (some ds) ca yr fd ot = Except.error Err.invalidOutputType := by
  obtain ⟨yv, hys⟩ := yearStep_ok_of_lenOK yr hyr
  unfold get_houses get_houses_run validate_args
  dsimp only
  rw [hys]
  dsimp only
  rw [if_pos (by rw [hot]; rfl)]

/-- C3 witness: the selector "csv" with an otherwise default call fails with
the invalid-output-selector condition. -/
theorem c3_invalid_output_witness :
    get_houses (some sampleData) CommArg.none YearArg.none false "csv" =
      Except.error Err.invalidOutputType :=
  c3_invalid_output sampleData CommArg.none YearArg.none false "csv" rfl rfl

/-- C4 counterexample: a supplied EMPTY year range is falsy, so it does not
fail with the invalid-year-range condition: it is silently treated as "no
year filter" and the call succeeds. -/
theorem c4_counterexample :
    get_houses (some sampleData) CommArg.none (YearArg.list []) false "polars" =
      Except.ok (some (Res.polarsLazy { cols := coreCols, rows := sampleData.rows }))
    ∧ get_houses (some sampleData) CommArg.none (YearArg.list []) false "polars" ≠
        Except.error Err.invalidYearRange := by
  refine ⟨rfl, fun hcontra => ?_⟩
  have h1 : get_houses (some sampleData) CommArg.none (YearArg.list []) false
      "polars" =
      Except.ok (some (Res.polarsLazy { cols := coreCols, rows := sampleData.rows })) :=
    rfl
  exact Except.noConfusion (h1.symm.trans hcontra)

/-- C4 (amended): a supplied year range of three or more elements fails with
the invalid-year-range condition; a one-element list is expanded to two equal
bounds and behaves exactly like the corresponding two-element range; an empty
supplied range is falsy and behaves exactly like an absent one. -/
theorem c4_year_length (ds : Dataset) (ca : CommArg) (fd : Bool) (ot : String) :
    (∀ ys : List Int, 3 ≤ ys.length →
      get_houses (some ds) ca (YearArg.list ys) fd ot =
        Except.error Err.invalidYearRange)
    ∧ (∀ y : Int, get_houses (some ds) ca (YearArg.list [y]) fd ot =
        get_houses (some ds) ca (YearArg.list [y, y]) fd ot)
    ∧ get_houses (some ds) ca (YearArg.list []) fd ot =
        get_houses (some ds) ca YearArg.none fd ot := by
  refine ⟨?_, ?_, ?_⟩
  · intro ys hlen
    have hnorm : normYear (YearArg.list ys) = ys := by
      unfold normYear
      dsimp only [YearArg.toList]
      rw [if_neg (by omega)]
    have htr : (YearArg.list ys).truthy = true := by
      cases ys with
      | nil => simp at hlen
      | cons a t => rfl
    have hys : yearStep (YearArg.list ys) = Except.error Err.invalidYearRange := by
      unfold yearStep
      rw [if_pos htr, hnorm, if_pos (by omega)]
    unfold get_houses get_houses_run validate_args
    dsimp only
    rw [hys]
  · intro y
    apply get_houses_congr_of_validate_eq
    unfold validate_args yearStep normYear
    simp [YearArg.truthy, YearArg.toList]
  · apply get_houses_congr_of_validate_eq
    unfold validate_args yearStep
    simp [YearArg.truthy]

/-- C4 witness: a 3-element range fails with invalid-year-range; a concrete
one-element range behaves like its two-element expansion. -/
theorem c4_year_length_witness :
    get_houses (some sampleData) CommArg.none (YearArg.list [1, 2, 3]) false
      "polars" = Except.error Err.invalidYearRange
    ∧ get_houses (some sampleData) CommArg.none (YearArg.list [1990]) false
        "polars" =
      get_houses (some sampleData) CommArg.none (YearArg.list [1990, 1990]) false
        "polars" :=
  ⟨(c4_year_length sampleData CommArg.none false "polars").1 [1, 2, 3] (by simp),
   (c4_year_length sampleData CommArg.none false "polars").2.1 1990⟩

theorem up_Atlantis : String.toUpper "Atlantis" = "ATLANTIS" := by
  rw [toUpper_data]; decide

/-- C5: on any call with a truthy community-area selection containing at least
one name whose uppercase-normalized form is not among the dataset's distinct
community values (the other validations passing), `get_houses` fails with the
invalid-community-area condition, and the error payload contains EVERY
offending normalized value, not just the first. -/
theorem c5_invalid_community (ds : Dataset) (ca : CommArg) (yr : YearArg)
    (fd : Bool) (ot : String) (htr : ca.truthy = true)
    (hyr : yearLenOK yr = true)
    (hot : ["geopandas", "pandas", "polars"].contains ot = true)
    (hbad : ∃ a ∈ ca.toList, String.toUpper a ∉ ds.communities) :
    ∃ names, get_houses (some ds) ca yr fd ot =
        Except.error (Err.invalidCommunityArea names)
      ∧ ∀ a ∈ ca.toList, String.toUpper a ∉ ds.communities →
          String.toUpper a ∈ names := by
  obtain ⟨a0, ha0mem, ha0bad⟩ := hbad
  obtain ⟨yv, hys⟩ := yearStep_ok_of_lenOK yr hyr
  refine ⟨(ca.toList.map String.toUpper).filter
      (fun a => !(ds.communities.contains a)), ?_, ?_⟩
  · have hinvmem : String.toUpper a0 ∈ (ca.toList.map String.toUpper).filter
        (fun a => !(ds.communities.contains a)) :=
      List.mem_filter.mpr ⟨List.mem_map_of_mem _ ha0mem, by simp [ha0bad]⟩
    have hinvne : ((ca.toList.map String.toUpper).filter
        (fun a => !(ds.communities.contains a))).isEmpty = false := by
      cases hie : ((ca.toList.map String.toUpper).filter
          (fun a => !(ds.communities.contains a))).isEmpty
      · rfl
      · rw [List.isEmpty_iff] at hie
        rw [hie] at hinvmem
        cases hinvmem
    have hcc : commCheck (normComm ca) ds =
        Except.error (Err.invalidCommunityArea ((ca.toList.map String.toUpper).filter
          (fun a => !(ds.communities.contains a)))) := by
      unfold commCheck normComm
      rw [if_pos htr]
      dsimp only
      rw [if_pos (by rw [hinvne]; rfl)]
    unfold get_houses get_houses_run validate_args
    dsimp only
    rw [hys]
    dsimp only
    rw [if_neg (by rw [hot]; simp), hcc]
  · intro a hamem habad
    exact List.mem_filter.mpr ⟨List.mem_map_of_mem _ hamem, by simp [habad]⟩

/-- C5 witness: supplying the unknown area "Atlantis" fails with the
invalid-community-area condition and the payload mentions "ATLANTIS". -/
theorem c5_invalid_community_witness :
    ∃ names, get_houses (some sampleData) (CommArg.list ["Atlantis"]) YearArg.none
        false "polars" = Except.error (Err.invalidCommunityArea names)
      ∧ "ATLANTIS" ∈ names := by
  have hAtl : String.toUpper "Atlantis" ∉ sampleData.communities := by
    rw [up_Atlantis]; decide
  obtain ⟨names, h1, h2⟩ := c5_invalid_community sampleData
    (CommArg.list ["Atlantis"]) YearArg.none false "polars" rfl rfl rfl
    ⟨"Atlantis", by simp [CommArg.toList], hAtl⟩
  exact ⟨names, h1, by
    simpa [up_Atlantis] using h2 "Atlantis" (by simp [CommArg.toList]) hAtl⟩

/-- C6: a successful call with the full-data flag false returns exactly the
five core columns; with the flag true it returns the dataset's full schema, a
superset containing both the core and the characteristic columns. -/
theorem c6_columns (ds : Dataset) (ca : CommArg) (yr : YearArg) (ot : String) :
    (∀ res, get_houses (some ds) ca yr false ot = Except.ok (some res) →
      res.cols = coreCols)
    ∧ (∀ res, get_houses (some ds) ca yr true ot = Except.ok (some res) →
      res.cols = ds.cols ∧ coreCols ⊆ res.cols ∧ ds.charCols ⊆ res.cols) := by
  constructor
  · intro res h
    unfold get_houses get_houses_run at h
    dsimp only at h
    rcases hv : validate_args ca ot yr ds with e | ⟨ca2, yr2⟩ <;>
      rw [hv] at h <;> dsimp only at h
    · exact absurd h (by simp)
    · have hok := Except.ok.inj h
      exact (buildResult_rows_cols hok).2
  · intro res h
    unfold get_houses get_houses_run at h
    dsimp only at h
    rcases hv : validate_args ca ot yr ds with e | ⟨ca2, yr2⟩ <;>
      rw [hv] at h <;> dsimp only at h
    · exact absurd h (by simp)
    · have hok := Except.ok.inj h
      have hc : res.cols = ds.cols := (buildResult_rows_cols hok).2
      refine ⟨hc, ?_, ?_⟩
      · rw [hc]
        exact List.subset_append_left _ _
      · rw [hc]
        exact List.subset_append_right _ _

/-- C6 witness: a minimal-mode call returns exactly the core columns, and a
full-mode call returns the sample dataset's full schema. -/
theorem c6_columns_witness :
    (Res.polarsLazy { cols := coreCols, rows := sampleData.rows }).cols = coreCols
    ∧ (Res.polarsLazy { cols := sampleData.cols, rows := sampleData.rows }).cols =
        sampleData.cols :=
  ⟨(c6_columns sampleData CommArg.none YearArg.none "polars").1
      (Res.polarsLazy { cols := coreCols, rows := sampleData.rows }) rfl,
   ((c6_columns sampleData CommArg.none YearArg.none "polars").2
      (Res.polarsLazy { cols := sampleData.cols, rows := sampleData.rows }) rfl).1⟩

/-- C7: a successful call materializes according to the output selector: the
"geopandas" selector yields a geometry-aware result whose geometry is parsed
from the `house_point` WKT column under CRS EPSG:4326; the "pandas" selector
yields a materialized plain table; the "polars" selector yields the
unexecuted lazy plan. -/
theorem c7_materialization (ds : Dataset) (ca : CommArg) (yr : YearArg)
    (fd : Bool) :
    (∀ res, get_houses (some ds) ca yr fd "geopandas" = Except.ok (some res) →
      ∃ f : Frame, res = Res.geo f (f.rows.map fun r => Point.mk r.house_point)
        "EPSG:4326")
    ∧ (∀ res, get_houses (some ds) ca yr fd "pandas" = Except.ok (some res) →
      ∃ f : Frame, res = Res.pandasDF f)
    ∧ (∀ res, get_houses (some ds) ca yr fd "polars" = Except.ok (some res) →
      ∃ f : Frame, res = Res.polarsLazy f) := by
  refine ⟨?_, ?_, ?_⟩
  · intro res h
    unfold get_houses get_houses_run at h
    dsimp only at h
    rcases hv : validate_args ca "geopandas" yr ds with e | ⟨ca2, yr2⟩ <;>
      rw [hv] at h <;> dsimp only at h
    · exact absurd h (by simp)
    · have hok := Except.ok.inj h
      rw [buildResult_geopandas] at hok
      exact ⟨_, (Option.some.inj hok).symm⟩
  · intro res h
    unfold get_houses get_houses_run at h
    dsimp only at h
    rcases hv : validate_args ca "pandas" yr ds with e | ⟨ca2, yr2⟩ <;>
      rw [hv] at h <;> dsimp only at h
    · exact absurd h (by simp)
    · have hok := Except.ok.inj h
      rw [buildResult_pandas] at hok
      exact ⟨_, (Option.some.inj hok).symm⟩
  · intro res h
    unfold get_houses get_houses_run at h
    dsimp only at h
    rcases hv : validate_args ca "polars" yr ds with e | ⟨ca2, yr2⟩ <;>
      rw [hv] at h <;> dsimp only at h
    · exact absurd h (by simp)
    · have hok := Except.ok.inj h
      rw [buildResult_polars] at hok
      exact ⟨_, (Option.some.inj hok).symm⟩

/-- C7 witness: a concrete "geopandas" call returns a geometry-aware result
with the WKT-parsed geometry and CRS EPSG:4326. -/
theorem c7_materialization_witness :
    ∃ f : Frame, Res.geo { cols := coreCols, rows := sampleData.rows }
        (sampleData.rows.map fun r => Point.mk r.house_point) "EPSG:4326" =
      Res.geo f (f.rows.map fun r => Point.mk r.house_point) "EPSG:4326" := by
  have hcall : get_houses (some sampleData) CommArg.none YearArg.none false
      "geopandas" =
      Except.ok (some (Res.geo { cols := coreCols, rows := sampleData.rows }
        (sampleData.rows.map fun r => Point.mk r.house_point) "EPSG:4326")) := rfl
  exact (c7_materialization sampleData CommArg.none YearArg.none false).1 _ hcall

/-- C9 counterexample: passing the one-element year-range list [2000] leaves
the caller's list mutated in place to [2000, 2000] after the call — a side
effect beyond the console notice, contradicting the claim that argument
values are left unmodified. -/
theorem c9_counterexample :
    (get_houses_run (some sampleData) CommArg.none (YearArg.list [2000]) false
        "polars").yearRangeAfter = YearArg.list [2000, 2000]
    ∧ (get_houses_run (some sampleData) CommArg.none (YearArg.list [2000]) false
        "polars").yearRangeAfter ≠ YearArg.list [2000] := by
  refine ⟨rfl, fun hcontra => ?_⟩
  have h1 : (get_houses_run (some sampleData) CommArg.none (YearArg.list [2000])
      false "polars").yearRangeAfter = YearArg.list [2000, 2000] := rfl
  have h2 := h1.symm.trans hcontra
  simp at h2

/-- C9 (amended): a call has no side effects beyond (a) the console notice,
printed only when full mode is selected, and (b) the in-place extension of a
caller-supplied ONE-element year-range list to two equal elements; every
other argument value is left unmodified. -/
theorem c9_side_effects (file : Option Dataset) (ca : CommArg) (yr : YearArg)
    (fd : Bool) (ot : String) :
    ((get_houses_run file ca yr fd ot).console = [] ∨
      (fd = true ∧ (get_houses_run file ca yr fd ot).console = [fullDataNotice]))
    ∧ ((get_houses_run file ca yr fd ot).yearRangeAfter = yr ∨
      ∃ y : Int, yr = YearArg.list [y] ∧
        (get_houses_run file ca yr fd ot).yearRangeAfter = YearArg.list [y, y]) := by
  cases file with
  | none => exact ⟨Or.inl rfl, Or.inl rfl⟩
  | some ds =>
    unfold get_houses_run
    dsimp only
    rcases hv : validate_args ca ot yr ds with e | ⟨ca2, yr2⟩ <;> dsimp only
    · constructor
      · exact Or.inl rfl
      · rcases yearArgAfterValidate_cases yr with hc | ⟨y, hy, hc⟩
        · exact Or.inl hc
        · exact Or.inr ⟨y, hy, hc⟩
    · constructor
      · cases fd with
        | false => exact Or.inl rfl
        | true => exact Or.inr ⟨rfl, rfl⟩
      · rcases yearArgAfterValidate_cases yr with hc | ⟨y, hy, hc⟩
        · exact Or.inl hc
        · exact Or.inr ⟨y, hy, hc⟩
